import Mathlib

/-
Shallow embedding of the core of the like_and_subscribe service:
the token manager (src/crates/like_and_subscribe/src/oauth.rs),
the renewal scheduler (actor/pubsubhubbub/refresh.rs),
the queue consumer (actor/pubsubhubbub/queue.rs and database.rs),
the reconciliation loop (actor/subscription.rs) and
the inbound hub confirmation handler (actor/web/pubsub.rs).

Conventions of the embedding:
- jiff Timestamp and the millisecond columns of the store are modelled as Int
  in an abstract time unit; jiff SignedDuration arithmetic saturates only at
  the i64 bound, which is unreachable for timestamps, so it is modelled as
  plain Int subtraction.
- A fallible conversion or an .expect that can trip is modelled as Option or
  as an explicit constructor for the panic, never silently clamped.
- Database writes are recorded as explicit effect values; the database itself
  is assumed reachable (a DbErr aborts the enclosing task and is out of scope
  of all claims here).
-/

/-- Action kinds stored in the subscription queue
(crates/entity_types/src/subscription_queue.rs, enum SubscriptionAction). -/
inductive SubscriptionAction
  | Subscribe
  | Unsubscribe
  | Refresh
deriving DecidableEq

/-- A row of the subscription_queue table (entity subscription_queue::Model;
columns from crates/migration: integer id, text channel_id, text action,
big-integer timestamp). -/
structure SubscriptionQueueModel where
  id : Int
  channel_id : String
  action : SubscriptionAction
  timestamp : Int
deriving DecidableEq

/-- A row of the active_subscriptions table (the Registry). -/
structure ActiveSubscriptionsModel where
  channel_id : String
  expiration : Int
deriving DecidableEq

/-- A row of the subscription_queue_result table. -/
structure SubscriptionQueueResultModel where
  queue_id : Int
  error : Option String
  timestamp : Int
deriving DecidableEq

/-- The OAuth credential (database.rs, struct Authentication). -/
structure Authentication where
  access_token : String
  refresh_token : String
  expires_at : Int
deriving DecidableEq

/-- oauth.rs, enum TokenStatus: the guarded in-memory state of the
token manager. -/
inductive TokenStatus
  | Missing (alerted : Bool)
  | Existing (auth : Authentication)
deriving DecidableEq

/-- Outcome of one refresh attempt against the OAuth provider, as observed by
wait_for_token: the exchange_refresh_token call succeeds and
Authentication::from_token_response parses it (success), the call succeeds but
the response lacks a refresh token or expiry (badResponse), or the HTTP call
itself fails (httpError). -/
inductive RefreshOutcome
  | success (auth : Authentication)
  | badResponse
  | httpError
deriving DecidableEq

/-- Effects of one lock-held evaluation of the wait_for_token body:
how many alert emails were queued (TokenManager::send_email), whether
OAuth::save_token was called and with what, and whether OAuth::remove_token
was called. -/
structure StepEffects where
  alerts : Nat
  saved : Option Authentication
  removed : Bool
deriving DecidableEq

/-- The empty effect set: no alert, no save, no removal. -/
def noEffects : StepEffects := ⟨0, none, false⟩

/-- What the wait_for_token loop body does after one evaluation: return an
access token to the caller, or fall through to notify.notified().await. -/
inductive StepResult
  | returned (access_token : String)
  | waits
deriving DecidableEq

/-- Result of one lock-held evaluation of the wait_for_token loop body:
the guarded state after the evaluation, the side effects, and whether the
caller returns or waits. -/
structure StepOutput where
  status : TokenStatus
  effects : StepEffects
  result : StepResult
deriving DecidableEq

/-- oauth.rs lines 83-144, TokenManager::wait_for_token: one evaluation of the
loop body while the mutex on current_token is held.  The freshness test in the
source is Timestamp::now().duration_until(expires_at) >= SignedDuration::ZERO,
i.e. expires_at - now >= 0.  Note that the source never assigns the guarded
cell in this function: neither the success arm (which persists the new
credential and returns its token) nor the failure arms (which persist the
removal and send an alert) write through the &mut borrow, so the in-memory
status component is unchanged in every Existing branch. -/
def wait_for_token_step (status : TokenStatus) (now : Int) (refresh : RefreshOutcome) :
    StepOutput :=
  match status with
  | .Existing authentication =>
      if authentication.expires_at - now ≥ 0 then
        ⟨status, noEffects, .returned authentication.access_token⟩
      else
        match refresh with
        | .success newAuth =>
            ⟨status, ⟨0, some newAuth, false⟩, .returned newAuth.access_token⟩
        | .badResponse => ⟨status, ⟨1, none, true⟩, .waits⟩
        | .httpError => ⟨status, ⟨1, none, true⟩, .waits⟩
  | .Missing true => ⟨status, noEffects, .waits⟩
  | .Missing false => ⟨.Missing true, ⟨1, none, false⟩, .waits⟩

/-- A sequence of lock-held evaluations of the wait_for_token body (by one or
several waiters, in any interleaving: the mutex serialises them), with no
intervening load_new_token.  Returns the final guarded state and the total
number of alert emails queued. -/
def wait_steps : TokenStatus → List (Int × RefreshOutcome) → TokenStatus × Nat
  | status, [] => (status, 0)
  | status, event :: rest =>
      let output := wait_for_token_step status event.1 event.2
      let tail := wait_steps output.status rest
      (tail.1, output.effects.alerts + tail.2)

/-- actor/pubsubhubbub/refresh.rs line 16: refresh_window, 24 hours in
seconds. -/
def refresh_window : Int := 60 * 60 * 24

/-- actor/pubsubhubbub/refresh.rs line 17: refresh_delay, 1 hour in
seconds. -/
def refresh_delay : Int := 60 * 60

/-- actor/pubsubhubbub/refresh.rs lines 24-32: the sleep computation of one
scheduler iteration.  With Some(expiration) the source computes
now.duration_until(expiration).saturating_sub(refresh_window
.saturating_sub(refresh_delay)) as a SignedDuration (saturation only at the
i64 bound, so plain subtraction here) and then converts it to an unsigned
std Duration with try_into().expect("duration should never be negative").
The conversion fails exactly when the signed value is negative, in which case
the expect panics and the scheduler task dies: that case is modelled as none.
With None the source sleeps a fixed day. -/
def pubsub_refresh_delay (soonest_expiration : Option Int) (now : Int) : Option Int :=
  match soonest_expiration with
  | some expiration =>
      let d : Int := (expiration - now) - (refresh_window - refresh_delay)
      if 0 ≤ d then some d else none
  | none => some (24 * 60 * 60)

/-- Display metadata collected for one channel by the reconciliation loop
(actor/subscription.rs, struct ChannelMetadata). -/
structure ChannelMetadata where
  name : String
  profile_picture : String
deriving DecidableEq

/-- actor/subscription.rs lines 97-188, get_all_subscriptions, with the
pagination collapsed to a single page: the upstream answer is a status code
plus the channels the pages would decode to.  A 304 Not Modified breaks out
with None; any non-success status (outside 200..=299, reqwest
StatusCode::is_success) breaks out with None; otherwise the collected map is
returned. -/
def get_all_subscriptions (status : Nat) (pages : List (String × ChannelMetadata)) :
    Option (List (String × ChannelMetadata)) :=
  if status = 304 then none
  else if ¬ (200 ≤ status ∧ status ≤ 299) then none
  else some pages

/-- The channel-id set of a collected listing (actor/subscription.rs line 55:
HashSet::from_iter(current_channels.keys().cloned())). -/
def current_channel_ids (channels : List (String × ChannelMetadata)) : Finset String :=
  (channels.map Prod.fst).toFinset

/-- Outcome of one iteration of the subscription_manager loop after the
listing call.  In the source, `None => break` exits the loop entirely: the
function then logs "shutting down" and returns Ok(()), so the task terminates
and no further tick ever runs; no queue, Registry or KnownChannels write
happens on that path.  Otherwise the diff is enqueued as one add_actions batch
(subscribes chained with unsubscribes) and the listing is upserted into
known_channels. -/
inductive TickOutcome
  | taskExited
  | ticked (subscribes : Finset String) (unsubscribes : Finset String)
      (known_channel_writes : List (String × ChannelMetadata))

/-- actor/subscription.rs lines 42-84: one iteration of the
subscription_manager loop, given the Registry snapshot (previous) and the
upstream response.  added = current - previous become Subscribe actions,
removed = previous - current become Unsubscribe actions, enqueued together in
a single batch. -/
def subscription_manager_tick (previous : Finset String) (status : Nat)
    (pages : List (String × ChannelMetadata)) : TickOutcome :=
  match get_all_subscriptions status pages with
  | none => .taskExited
  | some current_channels =>
      .ticked (current_channel_ids current_channels \ previous)
        (previous \ current_channel_ids current_channels)
        current_channels

/-- actor/pubsubhubbub/queue.rs, enum Mode. -/
inductive Mode
  | Subscribe
  | Unsubscribe
deriving DecidableEq

/-- actor/pubsubhubbub/queue.rs, enum Verify. -/
inductive Verify
  | Asynchronous
  | Synchronous
deriving DecidableEq

/-- actor/pubsubhubbub/queue.rs, struct HubRequest: the form body of one
outbound POST to the hub. -/
structure HubRequest where
  topic : String
  callback : String
  mode : Mode
  verify : Verify
deriving DecidableEq

/-- The feed URL base shared by fn topic (actor/pubsubhubbub/queue.rs line 41)
and fn channel_id_from_topic_url (actor/web/pubsub.rs line 47). -/
def YOUTUBE_FEED_URL : String := "https://www.youtube.com/xml/feeds/videos.xml?channel_id="

/-- actor/pubsubhubbub/queue.rs lines 40-42, fn topic. -/
def topic (channel_id : String) : String := YOUTUBE_FEED_URL ++ channel_id

/-- Outcome of one outbound hub POST as the consumer closure observes it:
either a response with some status code arrived, or the request failed on the
network and reqwest produced an error with the given message. -/
inductive HubOutcome
  | respStatus (status : Nat)
  | netError (message : String)
deriving DecidableEq

/-- reqwest Response::error_for_status: Err exactly for client-error and
server-error statuses, 400..=599 (a 1xx, 2xx or 3xx passes through as Ok).
The error message text is abstracted. -/
def error_for_status (status : Nat) : Except String Unit :=
  if 400 ≤ status ∧ status ≤ 599 then
    .error ("HTTP status error " ++ toString status)
  else .ok ()

/-- actor/pubsubhubbub/queue.rs lines 61-92: the per-item closure passed to
SubscriptionQueueItem::process.  Refresh without an active Registry row logs
and returns Ok before any request is built (zero hub calls); otherwise one
POST is issued with the computed mode, and its result goes through
error_for_status.  Returns the request issued (if any) and the closure
result. -/
def pubsub_queue_consumer_closure (callback : String)
    (queue_item : SubscriptionQueueModel)
    (active_subscription : Option ActiveSubscriptionsModel)
    (hub : HubOutcome) : Option HubRequest × Except String Unit :=
  match queue_item.action, active_subscription with
  | .Refresh, none => (none, .ok ())
  | action, _ =>
      let mode := match action with
        | .Subscribe => Mode.Subscribe
        | .Unsubscribe => Mode.Unsubscribe
        | .Refresh => Mode.Subscribe
      let request : HubRequest :=
        ⟨topic queue_item.channel_id, callback, mode, .Synchronous⟩
      match hub with
      | .netError message => (some request, .error message)
      | .respStatus status => (some request, error_for_status status)

/-- database.rs, struct SubscriptionQueueItem: one pending queue row joined
with its current ActiveSubscription row (present or absent).  The db handle is
omitted. -/
structure SubscriptionQueueItem where
  queue_item : SubscriptionQueueModel
  active_subscription : Option ActiveSubscriptionsModel
deriving DecidableEq

/-- database.rs lines 164-199, SubscriptionQueueItem::process, given the value
the closure returned: exactly one subscription_queue_result row is written for
the item, keyed by the queue id, with error None on Ok and the error text on
Err.  No retry is issued. -/
def SubscriptionQueueItem.process (self : SubscriptionQueueItem)
    (result : Except String Unit) (now : Int) : SubscriptionQueueResultModel :=
  match result with
  | .ok _ => ⟨self.queue_item.id, none, now⟩
  | .error error => ⟨self.queue_item.id, some error, now⟩

/-- One pending item handled end to end by the consumer: run the closure, then
write its result row.  Returns the hub request issued (if any) and the result
row written. -/
def consume_item (callback : String) (now : Int) (item : SubscriptionQueueItem)
    (hub : HubOutcome) : Option HubRequest × SubscriptionQueueResultModel :=
  let r := pubsub_queue_consumer_closure callback item.queue_item
    item.active_subscription hub
  (r.1, item.process r.2 now)

/-- One full drain of the pending set (actor/pubsubhubbub/queue.rs lines
52-98): every pending item, paired with the hub outcome of its own POST, is
processed exactly once; the rows written are collected.  The concurrency bound
of try_for_each_concurrent only affects completion order, which is covered by
permutation invariance. -/
def drain_pending (callback : String) (now : Int)
    (batch : List (SubscriptionQueueItem × HubOutcome)) :
    List SubscriptionQueueResultModel :=
  batch.map (fun p => (consume_item callback now p.1 p.2).2)

/-- Rust str::trim_start_matches with a string pattern: repeatedly remove the
pattern from the front while it is a prefix. -/
def trimStartMatches (pat : List Char) (s : List Char) : List Char :=
  if h : pat ≠ [] ∧ pat.isPrefixOf s then
    trimStartMatches pat (s.drop pat.length)
  else s
termination_by s.length
decreasing_by
  have hpre : pat <+: s := List.isPrefixOf_iff_prefix.mp h.2
  have hlen : pat.length ≤ s.length := hpre.length_le
  have hpos : 0 < pat.length := List.length_pos.mpr h.1
  simp only [List.length_drop]
  omega

/-- actor/web/pubsub.rs lines 44-48, fn channel_id_from_topic_url:
topic.trim_start_matches of the feed URL base. -/
def channel_id_from_topic_url (topic_url : String) : String :=
  String.mk (trimStartMatches YOUTUBE_FEED_URL.data topic_url.data)

/-- Digit-run accumulator for the integer parser: consumes the remaining
characters, failing on the first non-digit. -/
def parse_digits_aux : Nat → List Char → Option Nat
  | acc, [] => some acc
  | acc, c :: rest =>
      if c.isDigit then parse_digits_aux (acc * 10 + (c.toNat - '0'.toNat)) rest
      else none

/-- A non-empty run of ASCII digits, as a Nat. -/
def parse_digits : List Char → Option Nat
  | [] => none
  | s => parse_digits_aux 0 s

/-- Rust str::parse::<i64> as used on hub.lease_seconds: an optional plus or
minus sign followed by one or more ASCII digits.  The i64 overflow bound is
not modelled (no claim exercises it). -/
def parse_i64 (s : List Char) : Option Int :=
  match s with
  | '+' :: rest => (parse_digits rest).map Int.ofNat
  | '-' :: rest => (parse_digits rest).map (fun n => -(n : Int))
  | _ => (parse_digits s).map Int.ofNat

/-- actor/web/pubsub.rs, enum HubChallenge: a query that deserialized as a
subscribe or unsubscribe confirmation.  hub.lease_seconds is deserialized as
a String field and only parsed later. -/
inductive HubChallenge
  | Subscribe (topic : String) (challenge : String) (lease_seconds : String)
  | Unsubscribe (topic : String) (challenge : String)
deriving DecidableEq

/-- A write against the active_subscriptions table (the Registry) attempted by
the inbound handler. -/
inductive RegistryOp
  | upsert (channel_id : String) (expiration : Int)
  | remove (channel_id : String)
deriving DecidableEq

/-- The handler outcome: a 200 with the challenge echoed, an error status, or
a panic raised by an .expect (no HTTP response is produced by the handler on
that path). -/
inductive HandlerResponse
  | ok (body : String)
  | err (status : Nat)
  | panicked (message : String)
deriving DecidableEq

/-- actor/web/pubsub.rs lines 50-101, pubsub_subscription_validation.  The
query argument is none when axum query deserialization was rejected (the
request does not parse as a well-formed subscribe or unsubscribe query); on
that path the handler answers 400 BAD_REQUEST and touches nothing.  On a
subscribe confirmation the source runs
query.lease_seconds.parse::<i64>().expect("lease seconds should always be a
number") before any database access, so a non-integer lease panics.  The
i64 parse is modelled by parse_i64 over the characters.  db_ok says whether the registry
write succeeds; on failure the handler answers 500. -/
def pubsub_subscription_validation (query : Option HubChallenge) (now : Int)
    (db_ok : Bool) : List RegistryOp × HandlerResponse :=
  match query with
  | none => ([], .err 400)
  | some (.Unsubscribe topic_url challenge) =>
      let op := RegistryOp.remove (channel_id_from_topic_url topic_url)
      if db_ok then ([op], .ok challenge) else ([op], .err 500)
  | some (.Subscribe topic_url challenge lease_seconds) =>
      match parse_i64 lease_seconds.data with
      | none => ([], .panicked "lease seconds should always be a number")
      | some n =>
          let op := RegistryOp.upsert (channel_id_from_topic_url topic_url) (now + n)
          if db_ok then ([op], .ok challenge) else ([op], .err 500)

/-- A concrete two-item pending batch used to witness the drain theorem. -/
def demoBatch : List (SubscriptionQueueItem × HubOutcome) :=
  [(⟨⟨1, "UCa", .Subscribe, 0⟩, none⟩, .respStatus 204),
   (⟨⟨2, "UCb", .Unsubscribe, 0⟩, some ⟨"UCb", 99⟩⟩, .netError "connection reset")]

/-- Claim C1.  The claim states that when the upstream listing yields 304 Not
Modified or a non-success HTTP status, only the tick ends and the loop keeps
running.  The source instead breaks out of the subscription_manager loop on
the shared None return of get_all_subscriptions, so the reconciliation task
terminates: this theorem evaluates the embedded tick at a 304 and at
non-success statuses 500 and 403 and shows the outcome is taskExited (no
actions enqueued, no Registry or KnownChannels write, and no further tick). -/
theorem c1_tick_exits_task_on_not_modified_or_http_error
    (previous : Finset String) (pages : List (String × ChannelMetadata)) :
    subscription_manager_tick previous 304 pages = .taskExited
    ∧ subscription_manager_tick previous 500 pages = .taskExited
    ∧ subscription_manager_tick previous 403 pages = .taskExited :=
  ⟨rfl, rfl, rfl⟩

/-- Claim C2, counterexample.  The claim says one scheduler iteration sleeps
exactly max(0, (e - now) - (window - delay)) for every e.  At e = now = 0 that
value is 0, but the embedded computation yields none: the signed duration is
negative, the try_into conversion to an unsigned Duration fails, and the
expect panics, killing the scheduler task. -/
theorem c2_counterexample_negative_duration_panics :
    pubsub_refresh_delay (some 0) 0 = none
    ∧ pubsub_refresh_delay (some 0) 0
        ≠ some (max 0 ((0 - 0) - (refresh_window - refresh_delay))) := by
  refine ⟨rfl, ?_⟩
  decide

/-- Claim C2, amended.  One scheduler iteration with soonest_expiration
Some(e) sleeps exactly (e - now) - (window - delay) when e is at least
now + (window - delay); when e is earlier than that the signed duration is
negative, the conversion fails and the expect panics (modelled as none), so no
sleep happens and the task dies.  With None it sleeps exactly the 24-hour
fallback. -/
theorem c2_refresh_sleep_computation (e now : Int) :
    (now + (refresh_window - refresh_delay) ≤ e →
      pubsub_refresh_delay (some e) now
        = some ((e - now) - (refresh_window - refresh_delay)))
    ∧ (e < now + (refresh_window - refresh_delay) →
      pubsub_refresh_delay (some e) now = none)
    ∧ pubsub_refresh_delay none now = some (24 * 60 * 60) := by
  refine ⟨?_, ?_, rfl⟩
  · intro h
    simp only [pubsub_refresh_delay]
    rw [if_pos (by omega)]
  · intro h
    simp only [pubsub_refresh_delay]
    rw [if_neg (by omega)]

/-- Witness for the amended C2 theorem at concrete inputs: a subscription
expiring 100000 seconds from now = 0 yields a positive sleep, and one expiring
at e = 0 seen at now = 1 hits the panic path. -/
theorem c2_refresh_sleep_computation_witness :
    pubsub_refresh_delay (some 100000) 0
      = some ((100000 - 0) - (refresh_window - refresh_delay))
    ∧ pubsub_refresh_delay (some 0) 1 = none :=
  ⟨(c2_refresh_sleep_computation 100000 0).1 (by decide),
   (c2_refresh_sleep_computation 0 1).2.1 (by decide)⟩

/-- Claim C4.  One reconciliation tick whose listing succeeds enqueues, in a
single batch, Subscribe for exactly the ids of the listing that are not in the
Registry snapshot and Unsubscribe for exactly the Registry ids absent from the
listing; an id present in both sets is in neither enqueued set (the membership
characterisations make this exact). -/
theorem c4_tick_diff_correctness (previous : Finset String)
    (pages : List (String × ChannelMetadata)) :
    subscription_manager_tick previous 200 pages
      = .ticked (current_channel_ids pages \ previous)
          (previous \ current_channel_ids pages) pages
    ∧ ∀ c : String,
        (c ∈ current_channel_ids pages \ previous
          ↔ c ∈ current_channel_ids pages ∧ c ∉ previous)
        ∧ (c ∈ previous \ current_channel_ids pages
          ↔ c ∈ previous ∧ c ∉ current_channel_ids pages) :=
  ⟨rfl, fun _ => ⟨Finset.mem_sdiff, Finset.mem_sdiff⟩⟩

/-- Claim C3.  The claim states that after a refresh the guarded in-memory
state transitions to Present(new_cred) on success and to Missing with alerted
false on failure.  The source persists (save on success, removal plus alert on
failure) and returns or waits as claimed, but it never assigns the guarded
cell, so the in-memory state stays at the old expired credential in both
cases: this theorem evaluates one step at an expired credential, once with a
successful refresh and once with a failed one. -/
theorem c3_refresh_never_updates_guarded_state :
    wait_for_token_step
        (.Existing ⟨"old-token", "old-refresh", 0⟩) 1
        (.success ⟨"new-token", "new-refresh", 7200⟩)
      = ⟨.Existing ⟨"old-token", "old-refresh", 0⟩,
          ⟨0, some ⟨"new-token", "new-refresh", 7200⟩, false⟩,
          .returned "new-token"⟩
    ∧ wait_for_token_step (.Existing ⟨"old-token", "old-refresh", 0⟩) 1 .httpError
      = ⟨.Existing ⟨"old-token", "old-refresh", 0⟩, ⟨1, none, true⟩, .waits⟩ := by
  constructor <;> decide

/-- Claim C6, counterexample.  The claim says the cached token is returned
exactly when expires_at is strictly later than now, so that a credential with
expires_at = now triggers a refresh.  At expires_at = now = 0 the source test
duration_until(expires_at) >= 0 holds, and the step returns the cached token
with no refresh attempt, no alert and no store write, even though a refresh
would have succeeded. -/
theorem c6_counterexample_boundary_returns_cached :
    wait_for_token_step (.Existing ⟨"cached-token", "cached-refresh", 0⟩) 0
        (.success ⟨"new-token", "new-refresh", 7200⟩)
      = ⟨.Existing ⟨"cached-token", "cached-refresh", 0⟩, noEffects,
          .returned "cached-token"⟩ := by
  decide

/-- Claim C6, amended.  wait_for_token returns the cached access token
immediately, with no refresh attempt, no alert and no store write, exactly
when the guarded state is Present(cred) and cred.expires_at is greater than or
equal to now (non-strict: a credential whose expires_at equals now is still
treated as valid). -/
theorem c6_cached_token_returned_iff_not_expired (auth : Authentication)
    (now : Int) (refresh : RefreshOutcome) :
    wait_for_token_step (.Existing auth) now refresh
        = ⟨.Existing auth, noEffects, .returned auth.access_token⟩
      ↔ now ≤ auth.expires_at := by
  constructor
  · intro h
    by_contra hlt
    have hneg : ¬ (auth.expires_at - now ≥ 0) := by omega
    cases refresh <;>
      simp [wait_for_token_step, hneg, noEffects, StepOutput.mk.injEq,
        StepEffects.mk.injEq] at h
  · intro h
    have hpos : auth.expires_at - now ≥ 0 := by omega
    simp [wait_for_token_step, hpos]

/-- Helper: from the alerted Missing state, any sequence of wait_for_token
evaluations stays in that state and queues no alert. -/
theorem wait_steps_missing_alerted (events : List (Int × RefreshOutcome)) :
    wait_steps (.Missing true) events = (.Missing true, 0) := by
  induction events with
  | nil => rfl
  | cons event rest ih => simp [wait_steps, wait_for_token_step, ih, noEffects]

/-- Claim C7.  A waiter observing Missing with alerted false queues exactly
one alert and flips alerted to true in the same lock-held step; a waiter
observing Missing with alerted true queues nothing and waits.  Consequently a
demotion to Missing with alerted false yields exactly one alert over any
non-empty sequence of waiter evaluations before the state is resolved by
load_new_token, and any number of evaluations from the alerted state yield
zero further alerts. -/
theorem c7_exactly_one_alert_per_demotion
    (events : List (Int × RefreshOutcome)) (hne : events ≠ []) :
    wait_steps (.Missing false) events = (.Missing true, 1)
    ∧ wait_steps (.Missing true) events = (.Missing true, 0)
    ∧ ∀ (now : Int) (refresh : RefreshOutcome),
        wait_for_token_step (.Missing false) now refresh
          = ⟨.Missing true, ⟨1, none, false⟩, .waits⟩
        ∧ wait_for_token_step (.Missing true) now refresh
          = ⟨.Missing true, noEffects, .waits⟩ := by
  refine ⟨?_, wait_steps_missing_alerted events, fun now refresh => ⟨rfl, rfl⟩⟩
  cases events with
  | nil => exact absurd rfl hne
  | cons event rest =>
      simp [wait_steps, wait_for_token_step, wait_steps_missing_alerted rest]

/-- Witness for C7 at a concrete one-event sequence. -/
theorem c7_exactly_one_alert_per_demotion_witness :
    wait_steps (.Missing false) [((0 : Int), RefreshOutcome.httpError)]
      = (.Missing true, 1) :=
  (c7_exactly_one_alert_per_demotion [((0 : Int), RefreshOutcome.httpError)]
    (List.cons_ne_nil _ _)).1

/-- Helper: the result row written for an item is always keyed by that item's
queue id, whatever the closure returned. -/
theorem consume_item_queue_id (callback : String) (now : Int)
    (item : SubscriptionQueueItem) (hub : HubOutcome) :
    (consume_item callback now item hub).2.queue_id = item.queue_item.id := by
  simp only [consume_item, SubscriptionQueueItem.process]
  split <;> rfl

/-- Claim C5, counterexample.  The claim says the result row carries an error
message whenever the hub call fails by a non-2xx status.  A 301 response is
not a 2xx, yet reqwest error_for_status only rejects 400..=599, so the row is
written with error none: here a Subscribe action issues its hub call (isSome)
but records no error at status 301. -/
theorem c5_counterexample_redirect_status_records_no_error :
    (consume_item "https://cb.example/pubsub" 0
        ⟨⟨1, "UC1", .Subscribe, 0⟩, none⟩ (.respStatus 301)).1.isSome = true
    ∧ (consume_item "https://cb.example/pubsub" 0
        ⟨⟨1, "UC1", .Subscribe, 0⟩, none⟩ (.respStatus 301)).2.error = none := by
  constructor <;> rfl

/-- Claim C5, amended.  Processing one pending action writes exactly one
result row keyed by that action's id (so a full drain of N pending actions
writes exactly N rows, with no duplicates when the action ids are distinct,
and the multiset of rows is independent of processing order); for an action
that issues its hub call, the row has error none when the response status is
outside 400..=599 (so any 2xx, but also a redirect), and the failure message
when the call fails by network error or by a 4xx or 5xx status.  The consumer
issues no retry: one closure run and one row per action. -/
theorem c5_one_result_row_per_action (callback : String) (now : Int)
    (batch : List (SubscriptionQueueItem × HubOutcome)) :
    (drain_pending callback now batch).map SubscriptionQueueResultModel.queue_id
      = batch.map (fun p => p.1.queue_item.id)
    ∧ ((batch.map (fun p => p.1.queue_item.id)).Nodup →
        ((drain_pending callback now batch).map
          SubscriptionQueueResultModel.queue_id).Nodup)
    ∧ (∀ batch2, batch.Perm batch2 →
        (drain_pending callback now batch).Perm (drain_pending callback now batch2))
    ∧ (∀ (item : SubscriptionQueueItem) (status : Nat),
        (consume_item callback now item (.respStatus status)).1.isSome = true →
        (consume_item callback now item (.respStatus status)).2.error
          = if 400 ≤ status ∧ status ≤ 599 then
              some ("HTTP status error " ++ toString status)
            else none)
    ∧ (∀ (item : SubscriptionQueueItem) (message : String),
        (consume_item callback now item (.netError message)).1.isSome = true →
        (consume_item callback now item (.netError message)).2.error
          = some message) := by
  have hmap : (drain_pending callback now batch).map
      SubscriptionQueueResultModel.queue_id
      = batch.map (fun p => p.1.queue_item.id) := by
    simp only [drain_pending, List.map_map]
    exact List.map_congr_left
      (fun p _ => consume_item_queue_id callback now p.1 p.2)
  refine ⟨hmap, ?_, ?_, ?_, ?_⟩
  · intro hnd
    rw [hmap]
    exact hnd
  · intro batch2 hp
    exact hp.map _
  · intro item status hsome
    rcases item with ⟨⟨id, cid, action, ts⟩, active⟩
    by_cases hs : 400 ≤ status ∧ status ≤ 599
    · cases action <;> cases active <;>
        simp [consume_item, pubsub_queue_consumer_closure,
          SubscriptionQueueItem.process, error_for_status, hs] at hsome ⊢
    · cases action <;> cases active <;>
        simp [consume_item, pubsub_queue_consumer_closure,
          SubscriptionQueueItem.process, error_for_status, hs] at hsome ⊢
  · intro item message hsome
    rcases item with ⟨⟨id, cid, action, ts⟩, active⟩
    cases action <;> cases active <;>
      simp [consume_item, pubsub_queue_consumer_closure,
        SubscriptionQueueItem.process] at hsome ⊢

/-- Witness for the amended C5 theorem: draining the concrete two-item batch
gives duplicate-free result rows, and a network failure message is recorded
verbatim for an action that issued its call. -/
theorem c5_one_result_row_per_action_witness :
    ((drain_pending "https://cb.example/pubsub" 0 demoBatch).map
        SubscriptionQueueResultModel.queue_id).Nodup
    ∧ (consume_item "https://cb.example/pubsub" 0
        ⟨⟨2, "UCb", .Unsubscribe, 0⟩, some ⟨"UCb", 99⟩⟩
        (.netError "connection reset")).2.error = some "connection reset" :=
  ⟨(c5_one_result_row_per_action "https://cb.example/pubsub" 0 demoBatch).2.1
      (by decide),
   (c5_one_result_row_per_action "https://cb.example/pubsub" 0 demoBatch).2.2.2.2
      ⟨⟨2, "UCb", .Unsubscribe, 0⟩, some ⟨"UCb", 99⟩⟩ "connection reset"
      (by decide)⟩

/-- Claim C8.  A pending Refresh action with no matching ActiveSubscription
row issues zero hub calls and its result row is written with error none; a
Refresh action with a matching row issues its hub call with mode subscribe. -/
theorem c8_refresh_without_registry_entry_is_noop (callback : String)
    (now : Int) (id : Int) (channel_id : String) (ts : Int)
    (active : ActiveSubscriptionsModel) (hub : HubOutcome) :
    (consume_item callback now ⟨⟨id, channel_id, .Refresh, ts⟩, none⟩ hub).1 = none
    ∧ (consume_item callback now ⟨⟨id, channel_id, .Refresh, ts⟩, none⟩ hub).2
        = ⟨id, none, now⟩
    ∧ (consume_item callback now
        ⟨⟨id, channel_id, .Refresh, ts⟩, some active⟩ hub).1.map HubRequest.mode
        = some Mode.Subscribe := by
  refine ⟨rfl, rfl, ?_⟩
  cases hub <;> rfl

/-- Claim C9, counterexample.  The claim says every malformed confirmation
request, including a subscribe query whose hub.lease_seconds is not an
integer, receives a 4xx response.  Such a query deserializes fine (the field
is a String), and the handler then panics on
lease_seconds.parse expect, producing no HTTP response at all: in particular
it is not the 400 a rejected query gets.  No Registry write is attempted. -/
theorem c9_counterexample_nonint_lease_panics :
    pubsub_subscription_validation
        (some (.Subscribe "https://www.youtube.com/xml/feeds/videos.xml?channel_id=UCx"
          "challenge-token" "abc")) 0 true
      = ([], .panicked "lease seconds should always be a number")
    ∧ (pubsub_subscription_validation
        (some (.Subscribe "https://www.youtube.com/xml/feeds/videos.xml?channel_id=UCx"
          "challenge-token" "abc")) 0 true).2 ≠ .err 400 := by
  constructor
  · rfl
  · decide

/-- Claim C9, amended.  A request that does not deserialize as a well-formed
subscribe or unsubscribe query receives 400 Bad Request, with no Registry and
no Queue write; a subscribe query whose hub.lease_seconds does not parse as an
integer also performs no Registry or Queue write, but the handler panics on
the expect rather than returning a client error. -/
theorem c9_malformed_requests_touch_nothing (now : Int) (db_ok : Bool) :
    pubsub_subscription_validation none now db_ok = ([], .err 400)
    ∧ ∀ topic_url challenge lease_seconds : String,
        parse_i64 lease_seconds.data = none →
        pubsub_subscription_validation
            (some (.Subscribe topic_url challenge lease_seconds)) now db_ok
          = ([], .panicked "lease seconds should always be a number") := by
  refine ⟨rfl, ?_⟩
  intro topic_url challenge lease_seconds hlease
  simp [pubsub_subscription_validation, hlease]

/-- Witness for the amended C9 theorem at a concrete non-integer lease. -/
theorem c9_malformed_requests_touch_nothing_witness :
    pubsub_subscription_validation
        (some (.Subscribe "topic" "challenge" "abc")) 0 true
      = ([], .panicked "lease seconds should always be a number") :=
  (c9_malformed_requests_touch_nothing 0 true).2 "topic" "challenge" "abc"
    (by decide)

/-- Helper: trim_start_matches leaves a string alone when the pattern is not a
prefix of it. -/
theorem trimStartMatches_no_match (pat s : List Char)
    (h : pat.isPrefixOf s = false) : trimStartMatches pat s = s := by
  rw [trimStartMatches]
  rw [dif_neg]
  simp [h]

/-- Helper: trim_start_matches removes one leading copy of the pattern and
stops when the remainder does not start with the pattern again. -/
theorem trimStartMatches_append (pat s : List Char) (hpat : pat ≠ [])
    (h : pat.isPrefixOf s = false) : trimStartMatches pat (pat ++ s) = s := by
  rw [trimStartMatches]
  rw [dif_pos ⟨hpat, List.isPrefixOf_iff_prefix.mpr (List.prefix_append pat s)⟩]
  rw [List.drop_left]
  exact trimStartMatches_no_match pat s h

/-- Claim C10.  For every channel id that does not itself begin with the feed
URL base, channel_id_from_topic_url inverts topic: the trim_start_matches in
the inbound handler recovers exactly the channel id the consumer embedded in
the outbound hub.topic URL, so the Registry key written or removed on a
confirmation for topic(channel_id) is channel_id itself. -/
theorem c10_channel_id_roundtrip (channel_id : String)
    (h : YOUTUBE_FEED_URL.data.isPrefixOf channel_id.data = false) :
    channel_id_from_topic_url (topic channel_id) = channel_id := by
  have hne : YOUTUBE_FEED_URL.data ≠ [] := by decide
  rw [channel_id_from_topic_url, topic, String.data_append,
    trimStartMatches_append _ _ hne h]

/-- Witness for C10 at a concrete channel id. -/
theorem c10_channel_id_roundtrip_witness :
    channel_id_from_topic_url (topic "UCabc") = "UCabc" :=
  c10_channel_id_roundtrip "UCabc" (by decide)
